import Mathlib

/-!
Verification development for the `InteractiveAvatar` component
(`src/components/InteractiveAvatar.tsx`): a shallow embedding of the
voice-intent classifier (`analyzeVoiceIntent`), the audio turn
coordinator (the `AVATAR_START_TALKING` / `AVATAR_STOP_TALKING`
handlers, `onResult`, `handleUserSpeech`), the avatar speech wrapper
(`speakWithAvatar`), and the chat-history round trip, together with
theorems settling the specification's claims about them.
-/

namespace AvatarSpec

/-! ### String utilities

JavaScript string operations used by the component, modelled on
`List Char`: substring containment (`String.prototype.includes`),
whitespace collapsing (`.replace(/\s+/g, ' ')`) and trimming
(`.trim()`). -/

/-- `beginsWithChars needle hay` holds when `needle` is a prefix of `hay`. -/
def beginsWithChars : List Char → List Char → Bool
  | [], _ => true
  | _ :: _, [] => false
  | c :: cs, d :: ds => c == d && beginsWithChars cs ds

/-- `containsChars hay needle` holds when `needle` occurs contiguously in
`hay`; models `hay.includes(needle)` (the empty needle always matches). -/
def containsChars : List Char → List Char → Bool
  | [], needle => needle.isEmpty
  | c :: t, needle => beginsWithChars needle (c :: t) || containsChars t needle

/-- `includesStr hay needle` models the JS test `hay.includes(needle)`. -/
def includesStr (hay needle : String) : Bool :=
  containsChars hay.data needle.data

/-- Collapse each maximal run of whitespace into a single space; `prevWs`
records whether the previous character belonged to a whitespace run.
Models `.replace(/\s+/g, ' ')`. -/
def collapseWsAux : Bool → List Char → List Char
  | _, [] => []
  | prevWs, c :: cs =>
    if c.isWhitespace then
      if prevWs then collapseWsAux true cs
      else ' ' :: collapseWsAux true cs
    else c :: collapseWsAux false cs

/-- Whitespace collapsing from the start of the string. -/
def collapseWs (l : List Char) : List Char :=
  collapseWsAux false l

/-- Remove leading and trailing whitespace; models `.trim()`. -/
def trimWs (l : List Char) : List Char :=
  ((l.dropWhile Char.isWhitespace).reverse.dropWhile Char.isWhitespace).reverse

/-- Transcript normalization performed at the top of `analyzeVoiceIntent`:
`transcript.toLowerCase().replace(/\s+/g, ' ').trim()`. -/
def normalize (s : String) : String :=
  ⟨trimWs (collapseWs (s.data.map Char.toLower))⟩

/-- Upper-casing of a game id; models `game.toUpperCase()` (the game ids
are plain ASCII). -/
def toUpperStr (s : String) : String :=
  ⟨s.data.map Char.toUpper⟩

/-! ### The command pattern tables (`VOICE_COMMAND_PATTERNS`,
`GAME_ACTION_KEYWORDS`, `GAME_NAMES`, `UI_RESPONSES`), in source
declaration order. -/

/-- `VOICE_COMMAND_PATTERNS.GAME_START`: game id → trigger phrases. -/
def VOICE_COMMAND_PATTERNS_GAME_START : List (String × List String) :=
  [("hwatu",
    ["화투", "카드", "짝맞추기", "짝 맞추기", "카드게임", "카드 게임",
     "화투 시작", "카드 시작", "짝맞추기 시작", "짝맞추기 해", "짝맞추기 하자",
     "화투 게임", "카드짝", "그림 맞추기"]),
   ("pattern",
    ["색상", "패턴", "색깔", "색상 패턴", "색깔 기억", "색상 게임", "패턴 게임",
     "색상 시작", "패턴 시작", "색깔 맞추기", "사이먼", "색깔 순서"]),
   ("memory",
    ["숫자", "숫자 기억", "숫자 외우기", "숫자 게임", "숫자 맞추기",
     "숫자 시작", "숫자 기억하기", "숫자 외우기 하자", "번호 기억"]),
   ("proverb",
    ["속담", "속담 완성", "속담 게임", "속담 맞추기", "속담 시작",
     "속담 완성하기", "속담 하자", "옛말", "격언"]),
   ("calc",
    ["계산", "산수", "덧셈", "뺄셈", "계산 게임", "산수 게임",
     "계산 시작", "산수 시작", "계산 하자", "산수 하자", "수학", "더하기 빼기",
     "산수 계산"]),
   ("sequence",
    ["순서", "순서 맞추기", "그림 순서", "순서 게임", "순서 시작",
     "순서 맞추기 하자", "순서 정하기", "차례", "배열"])]

/-- `VOICE_COMMAND_PATTERNS.UI_CONTROL`: UI action → trigger phrases. -/
def VOICE_COMMAND_PATTERNS_UI_CONTROL : List (String × List String) :=
  [("SHOW_MY_RECORDS",
    ["내 점수", "내 기록", "점수 보여", "기록 보여", "내 점수 보여줘",
     "점수 확인", "내 성적", "성적 보여줘", "내 기록 보여줘", "점수 창"]),
   ("SHOW_DASHBOARD",
    ["대시보드", "인지 분석", "두뇌 건강", "분석 보여줘", "인지 점수",
     "두뇌 분석", "건강 분석", "인지 능력", "뇌 건강"]),
   ("SHOW_RANKING",
    ["랭킹", "순위", "1등", "일등", "랭킹 보여줘", "순위 보여줘",
     "누가 1등", "전체 순위", "랭킹 창", "등수"]),
   ("CLOSE_MODAL",
    ["닫아", "닫기", "나가", "나가기", "뒤로", "뒤로가기", "창 닫아",
     "그만", "끝", "종료", "취소", "돌아가"]),
   ("SAVE_SCORE",
    ["저장", "저장해", "저장해줘", "기록 저장", "점수 저장",
     "세이브", "저장하자", "저장 해줘"])]

/-- `VOICE_COMMAND_PATTERNS.INFO_REQUEST`: flat list of trigger phrases. -/
def VOICE_COMMAND_PATTERNS_INFO_REQUEST : List String :=
  ["점수 알려줘", "오늘 몇점", "최고 점수", "평균 점수",
   "몇번 했어", "며칠째", "설명해줘", "어떻게 해", "방법 알려줘",
   "규칙이 뭐야", "어떻게 하는 거야"]

/-- `GAME_ACTION_KEYWORDS`: action/imperative words for the GAME_START
heuristic. -/
def GAME_ACTION_KEYWORDS : List String :=
  ["시작", "하자", "해줘", "해", "할래", "하고 싶어", "해볼래", "하고싶어",
   "실행", "열어", "켜줘", "켜", "플레이", "게임", "고", "go", "해보자",
   "열어줘", "시작해", "시작해줘", "해봐", "해 봐", "시작하자"]

/-- `GAME_NAMES`: game id → Korean display name. -/
def GAME_NAMES : List (String × String) :=
  [("hwatu", "화투 짝맞추기"),
   ("pattern", "색상 패턴 기억"),
   ("memory", "숫자 기억하기"),
   ("proverb", "속담 완성하기"),
   ("calc", "산수 계산"),
   ("sequence", "순서 맞추기")]

/-- `UI_RESPONSES`: UI action → canned acknowledgement. -/
def UI_RESPONSES : List (String × String) :=
  [("SHOW_MY_RECORDS", "네, 기록을 보여드릴게요."),
   ("SHOW_DASHBOARD", "인지 분석 대시보드를 열어드릴게요."),
   ("SHOW_RANKING", "전체 랭킹을 보여드릴게요."),
   ("CLOSE_MODAL", "네, 창을 닫을게요."),
   ("SAVE_SCORE", "점수를 저장할게요.")]

/-! ### The intent classifier `analyzeVoiceIntent` -/

/-- The closed set of intent types of the `VoiceIntent` interface. -/
inductive IntentType where
  | GAME_START
  | UI_CONTROL
  | INFO_REQUEST
  | GENERAL_CHAT
deriving DecidableEq, Repr

/-- The `VoiceIntent` record returned by `analyzeVoiceIntent`.
Confidences are the exact decimal constants of the source, as
rationals. -/
structure VoiceIntent where
  type : IntentType
  action : Option String
  game : Option String
  confidence : ℚ
deriving DecidableEq, Repr

/-- First UI_CONTROL loop of `analyzeVoiceIntent`: iterate the actions in
declaration order and return the first whose phrase list has a phrase
contained in the normalized transcript. -/
def findFirstMatch (n : String) : List (String × List String) → Option String
  | [] => none
  | (action, kws) :: rest =>
    if kws.any (fun k => includesStr n k) then some action
    else findFirstMatch n rest

/-- `hasActionWord`: the normalized transcript contains one of the fixed
`GAME_ACTION_KEYWORDS`. -/
def hasActionWord (n : String) : Bool :=
  GAME_ACTION_KEYWORDS.any (fun a => includesStr n a)

/-- The per-keyword GAME_START acceptance heuristic of
`analyzeVoiceIntent`: `hasActionWord || isExplicitGameKeyword ||
(!isShortKeyword && keywords.slice(0, 3).some(...))`. -/
def gameStartHeuristic (n : String) (kws : List String) (keyword : String) : Bool :=
  let hasAction := hasActionWord n
  let isShortKeyword := keyword.length ≤ 2
  let isExplicitGameKeyword := includesStr keyword "게임" || includesStr keyword "시작"
  hasAction || isExplicitGameKeyword ||
    (!isShortKeyword && (kws.take 3).any (fun k => includesStr n k))

/-- Inner GAME_START keyword loop: the first phrase of `rem` (a suffix of
the game's full list `kws`) that is contained in the transcript and
passes the acceptance heuristic. -/
def findAcceptedKeyword (n : String) (kws : List String) : List String → Option String
  | [] => none
  | k :: rest =>
    if includesStr n k && gameStartHeuristic n kws k then some k
    else findAcceptedKeyword n kws rest

/-- Outer GAME_START loop: the first game (in table order) for which some
phrase is contained in the transcript and accepted by the heuristic. -/
def findGameStart (n : String) : List (String × List String) → Option String
  | [] => none
  | (g, kws) :: rest =>
    match findAcceptedKeyword n kws kws with
    | some _ => some g
    | none => findGameStart n rest

/-- `analyzeVoiceIntent`: normalize, then check UI_CONTROL, then
GAME_START (with the acceptance heuristic), then INFO_REQUEST, then
default to GENERAL_CHAT. -/
def analyzeVoiceIntent (transcript : String) : VoiceIntent :=
  let n := normalize transcript
  match findFirstMatch n VOICE_COMMAND_PATTERNS_UI_CONTROL with
  | some action =>
    { type := .UI_CONTROL, action := some action, game := none,
      confidence := (95 : ℚ) / 100 }
  | none =>
    match findGameStart n VOICE_COMMAND_PATTERNS_GAME_START with
    | some game =>
      { type := .GAME_START,
        action := some ("START_GAME_" ++ toUpperStr game),
        game := some game,
        confidence := if hasActionWord n then (95 : ℚ) / 100 else (85 : ℚ) / 100 }
    | none =>
      if VOICE_COMMAND_PATTERNS_INFO_REQUEST.any (fun k => includesStr n k) then
        { type := .INFO_REQUEST, action := none, game := none,
          confidence := (85 : ℚ) / 100 }
      else
        { type := .GENERAL_CHAT, action := none, game := none,
          confidence := (7 : ℚ) / 10 }

/-! ### Chat data model -/

/-- Role of a chat turn (`ChatMessage.role`). -/
inductive Role where
  | user
  | assistant
deriving DecidableEq, Repr

/-- The `ChatMessage` interface: `{role, content}`. -/
structure ChatMessage where
  role : Role
  content : String
deriving DecidableEq, Repr

/-- JSON body built by `callChatAPI('chat', {message, history})`:
`{type, message, history, userName}`. -/
structure ChatRequestBody where
  type : String
  message : String
  history : List ChatMessage
  userName : String
deriving DecidableEq, Repr

/-- Association-list lookup with a default; models the JS pattern
`TABLE[key] || fallback` on the constant record tables. -/
def lookupD (table : List (String × String)) (k : String) (d : String) : String :=
  match table.lookup k with
  | some v => v
  | none => d

/-- The `INFO_REQUEST`/`GENERAL_CHAT` branch of `handleUserSpeech`:
append the user turn, issue the chat request whose body carries the
pre-append history (the closure value of `chatHistory`), then append
the assistant turn.  Returns the new history and the request body.
`reply` is the external chat collaborator's answer. -/
def chatDispatch (history : List ChatMessage) (userName transcript reply : String) :
    List ChatMessage × ChatRequestBody :=
  (history ++ [⟨Role.user, transcript⟩, ⟨Role.assistant, reply⟩],
   { type := "chat", message := transcript, history := history, userName := userName })

/-- Sequential composition of `INFO_REQUEST`/`GENERAL_CHAT` cycles: fold
`chatDispatch` over a list of (transcript, reply) pairs, collecting the
request bodies in call order. -/
def chatRun (userName : String) (h : List ChatMessage) :
    List (String × String) → List ChatMessage × List ChatRequestBody
  | [] => (h, [])
  | (t, r) :: rest =>
    ((chatRun userName (chatDispatch h userName t r).1 rest).1,
     (chatDispatch h userName t r).2 ::
       (chatRun userName (chatDispatch h userName t r).1 rest).2)

/-! ### Audio turn coordinator

State machine over the component's refs and state relevant to turn
taking, with the externally observable side effects of a step recorded
as an effect trace. -/

/-- Observable side effects of a coordinator step. -/
inductive Effect where
  | classify (transcript : String)
  | sendCommand (action : String) (game : Option String)
  | speak (text : String)
  | chatRequest (body : ChatRequestBody)
deriving DecidableEq, Repr

/-- Coordinator state: the refs and React state of the component that
the cited handlers read or write. -/
structure CoordState where
  avatarSpeakingRef : Bool
  avatarSpeakingState : Bool
  processing : Bool
  loading : Bool
  recognizerPaused : Bool
  interim : String
  history : List ChatMessage
  userName : String
deriving DecidableEq, Repr

/-- Initial coordinator state (all flags false, empty history). -/
def initCoordState : CoordState :=
  { avatarSpeakingRef := false, avatarSpeakingState := false,
    processing := false, loading := false, recognizerPaused := false,
    interim := "", history := [], userName := "" }

/-- The `switch (intent.type)` dispatcher inside `handleUserSpeech`:
send the cross-window command and/or chat request, update the chat
history, and speak the response.  `reply` is the external chat
collaborator's answer, used only on the chat branch. -/
def dispatchIntent (s : CoordState) (transcript reply : String) :
    CoordState × List Effect :=
  let intent := analyzeVoiceIntent transcript
  match intent.type with
  | .GAME_START =>
    let gameId := intent.game.getD ""
    let gameName := lookupD GAME_NAMES gameId gameId
    let gameResponse := "네! " ++ gameName ++ " 게임을 시작할게요. 화이팅!"
    ({ s with history := s.history ++
        [⟨Role.user, transcript⟩, ⟨Role.assistant, gameResponse⟩] },
     [Effect.sendCommand (intent.action.getD "") intent.game,
      Effect.speak gameResponse])
  | .UI_CONTROL =>
    let uiResponse := lookupD UI_RESPONSES (intent.action.getD "") "알겠습니다."
    ({ s with history := s.history ++
        [⟨Role.user, transcript⟩, ⟨Role.assistant, uiResponse⟩] },
     [Effect.sendCommand (intent.action.getD "") none,
      Effect.speak uiResponse])
  | _ =>
    ({ s with history := (chatDispatch s.history s.userName transcript reply).1 },
     [Effect.chatRequest (chatDispatch s.history s.userName transcript reply).2,
      Effect.speak reply])

/-- `handleUserSpeech` up to its `finally` block: drop the transcript if
the avatar is speaking, if it is whitespace-only, or if a cycle is
already in flight; otherwise mark the cycle in flight, clear the
interim transcript, classify and dispatch. -/
def handleUserSpeech (s : CoordState) (transcript reply : String) :
    CoordState × List Effect :=
  if s.avatarSpeakingRef then (s, [])
  else if (trimWs transcript.data).isEmpty || s.processing then (s, [])
  else
    let s1 := { s with processing := true, loading := true, interim := "" }
    ((dispatchIntent s1 transcript reply).1,
     Effect.classify transcript :: (dispatchIntent s1 transcript reply).2)

/-- The `onResult` speech-recognition callback: drop everything while the
avatar is speaking; otherwise a final transcript clears the interim
display and goes to `handleUserSpeech`, an interim one only updates the
interim display. -/
def onResult (s : CoordState) (transcript : String) (isFinal : Bool) (reply : String) :
    CoordState × List Effect :=
  if s.avatarSpeakingRef then (s, [])
  else if isFinal then
    handleUserSpeech { s with interim := "" } transcript reply
  else
    ({ s with interim := transcript }, [])

/-- Events driving the coordinator.  `transcript` carries the external
chat collaborator's reply as an environment input; `cycleEnd` is the
`finally` block of `handleUserSpeech` closing the in-flight cycle, with
`ok` telling the success path from the error path. -/
inductive Event where
  | avatarStart
  | avatarStop
  | transcript (text : String) (isFinal : Bool) (reply : String)
  | cycleEnd (ok : Bool)
deriving DecidableEq, Repr

/-- One coordinator step: the `AVATAR_START_TALKING` and
`AVATAR_STOP_TALKING` handlers, `onResult`, and the `finally` block of
`handleUserSpeech`. -/
def step (s : CoordState) : Event → CoordState × List Effect
  | .avatarStart =>
    ({ s with
        avatarSpeakingRef := true
        avatarSpeakingState := true
        recognizerPaused := true }, [])
  | .avatarStop =>
    ({ s with
        avatarSpeakingRef := false
        avatarSpeakingState := false
        recognizerPaused := false }, [])
  | .transcript t isFinal reply => onResult s t isFinal reply
  | .cycleEnd _ =>
    ({ s with loading := false, processing := false }, [])

/-- Run of the coordinator step relation, accumulating effects. -/
def run (s : CoordState) : List Event → CoordState × List Effect
  | [] => (s, [])
  | e :: es =>
    ((run (step s e).1 es).1, (step s e).2 ++ (run (step s e).1 es).2)

/-! ### The avatar speech wrapper `speakWithAvatar` -/

/-- Externally observable actions of `speakWithAvatar`, in order. -/
inductive SpeakAction where
  | pause
  | delayMs (ms : Nat)
  | interrupt
  | speak (text : String)
  | resume
deriving DecidableEq, Repr

/-- Flags touched by `speakWithAvatar`: the `isAvatarSpeakingRef` ref,
the `isAvatarSpeaking` React state, and whether the recognizer is
paused. -/
structure SpeakState where
  avatarSpeakingRef : Bool
  avatarSpeakingState : Bool
  recognizerPaused : Bool
deriving DecidableEq, Repr

/-- Speak-wrapper state with all flags cleared. -/
def initSpeakState : SpeakState :=
  { avatarSpeakingRef := false, avatarSpeakingState := false,
    recognizerPaused := false }

/-- `speakWithAvatar`: no-op without an avatar or on empty text;
otherwise set the speaking flags, pause the recognizer, wait 300 ms,
interrupt the in-flight utterance (a failure there is swallowed), then
speak.  If the speak call fails, the catch block resets both flags and
resumes the recognizer.  `hasAvatar` models `avatarRef.current` being
non-null; the third and fourth arguments model the `interrupt` and
`speak` SDK calls raising (an interrupt failure is swallowed and never
changes the outcome, hence its binder is unused). -/
def speakWithAvatar (hasAvatar : Bool) (text : String)
    (_interruptFails speakFails : Bool) (s : SpeakState) :
    SpeakState × List SpeakAction :=
  if !hasAvatar || text == "" then (s, [])
  else
    let sOn : SpeakState :=
      { avatarSpeakingRef := true, avatarSpeakingState := true,
        recognizerPaused := true }
    let preActs := [SpeakAction.pause, SpeakAction.delayMs 300, SpeakAction.interrupt]
    if speakFails then
      ({ avatarSpeakingRef := false, avatarSpeakingState := false,
         recognizerPaused := false },
       preActs ++ [SpeakAction.speak text, SpeakAction.resume])
    else
      (sOn, preActs ++ [SpeakAction.speak text])

/-- First index at which an action occurs in a trace. -/
def firstIdx (a : SpeakAction) : List SpeakAction → Option Nat
  | [] => none
  | b :: bs => if a == b then some 0 else (firstIdx a bs).map (· + 1)

/-! ### Specification-side helpers

Definitions following the spec's words, used to state claims against
the source functions above. -/

/-- First phrase of a list contained in the normalized transcript
(containment only, no acceptance heuristic). -/
def firstKeywordMatch (n : String) : List String → Option String
  | [] => none
  | k :: ks => if includesStr n k then some k else firstKeywordMatch n ks

/-- First (game, phrase) pair of the GAME_START table, in
table-declaration order, whose phrase is contained in the normalized
transcript — the "first such matching (game, phrase) pair" of the
spec, independent of the acceptance heuristic. -/
def firstGameMatchPair (n : String) :
    List (String × List String) → Option (String × String)
  | [] => none
  | (g, kws) :: rest =>
    match firstKeywordMatch n kws with
    | some k => some (g, k)
    | none => firstGameMatchPair n rest

/-- The user/assistant turns a sequence of chat cycles is expected to
append, in call order. -/
def turns : List (String × String) → List ChatMessage
  | [] => []
  | (t, r) :: rest =>
    ⟨Role.user, t⟩ :: ⟨Role.assistant, r⟩ :: turns rest

/-- No phrase of any category (UI_CONTROL, GAME_START, INFO_REQUEST) is
contained in the normalized transcript. -/
def noPatternMatch (n : String) : Bool :=
  (!VOICE_COMMAND_PATTERNS_UI_CONTROL.any fun p => p.2.any fun k => includesStr n k) &&
  (!VOICE_COMMAND_PATTERNS_GAME_START.any fun p => p.2.any fun k => includesStr n k) &&
  (!VOICE_COMMAND_PATTERNS_INFO_REQUEST.any fun k => includesStr n k)

/-! ### Lemmas about the classifier loops -/

/-- The first UI_CONTROL loop returns the first category, in
table-declaration order, with a matching phrase. -/
theorem findFirstMatch_eq_filterHead (n : String) (table : List (String × List String)) :
    findFirstMatch n table =
      ((table.filter fun p => p.2.any fun k => includesStr n k).head?).map Prod.fst := by
  induction table with
  | nil => rfl
  | cons p rest ih =>
    obtain ⟨a, kws⟩ := p
    by_cases h : (kws.any fun k => includesStr n k) = true
    · simp [findFirstMatch, List.filter_cons, h]
    · simp only [Bool.not_eq_true] at h
      simp [findFirstMatch, List.filter_cons, h, ih]

/-- The first UI_CONTROL loop finds a category exactly when some phrase
of some category matches. -/
theorem findFirstMatch_isSome (n : String) (table : List (String × List String)) :
    (findFirstMatch n table).isSome
      = table.any fun p => p.2.any fun k => includesStr n k := by
  induction table with
  | nil => rfl
  | cons p rest ih =>
    obtain ⟨a, kws⟩ := p
    by_cases h : (kws.any fun k => includesStr n k) = true
    · simp [findFirstMatch, h]
    · simp only [Bool.not_eq_true] at h
      simp [findFirstMatch, h, ih]

/-- The inner GAME_START loop accepts exactly when some phrase of the
remainder matches and passes the heuristic. -/
theorem findAcceptedKeyword_isSome_iff (n : String) (kws rem : List String) :
    (findAcceptedKeyword n kws rem).isSome = true ↔
      ∃ k ∈ rem, includesStr n k = true ∧ gameStartHeuristic n kws k = true := by
  induction rem with
  | nil => simp [findAcceptedKeyword]
  | cons k ks ih =>
    simp only [findAcceptedKeyword]
    by_cases h : (includesStr n k && gameStartHeuristic n kws k) = true
    · rw [if_pos h]
      rw [Bool.and_eq_true] at h
      simp only [Option.isSome_some, true_iff]
      exact ⟨k, List.mem_cons_self _ _, h.1, h.2⟩
    · rw [if_neg h]
      rw [Bool.and_eq_true] at h
      rw [ih]
      constructor
      · rintro ⟨k', hk', hik, hgk⟩
        exact ⟨k', List.mem_cons_of_mem _ hk', hik, hgk⟩
      · rintro ⟨k', hk', hik, hgk⟩
        rcases List.mem_cons.mp hk' with rfl | hk'
        · exact absurd ⟨hik, hgk⟩ h
        · exact ⟨k', hk', hik, hgk⟩

/-- The outer GAME_START loop accepts exactly when some (game, phrase)
pair of the table matches and passes the heuristic. -/
theorem findGameStart_isSome_iff (n : String) (table : List (String × List String)) :
    (findGameStart n table).isSome = true ↔
      ∃ p ∈ table, ∃ k ∈ p.2,
        includesStr n k = true ∧ gameStartHeuristic n p.2 k = true := by
  induction table with
  | nil => simp [findGameStart]
  | cons p rest ih =>
    obtain ⟨g, kws⟩ := p
    simp only [findGameStart]
    cases hfa : findAcceptedKeyword n kws kws with
    | some k =>
      have hsome : (findAcceptedKeyword n kws kws).isSome = true := by
        rw [hfa]; rfl
      rw [findAcceptedKeyword_isSome_iff] at hsome
      obtain ⟨k', hk', hik, hgk⟩ := hsome
      simp only [Option.isSome_some, true_iff]
      exact ⟨(g, kws), List.mem_cons_self _ _, k', hk', hik, hgk⟩
    | none =>
      rw [ih]
      constructor
      · rintro ⟨q, hq, hq2⟩
        exact ⟨q, List.mem_cons_of_mem _ hq, hq2⟩
      · rintro ⟨q, hq, k', hk', hik, hgk⟩
        rcases List.mem_cons.mp hq with rfl | hq
        · exfalso
          have hsome : (findAcceptedKeyword n kws kws).isSome = true := by
            rw [findAcceptedKeyword_isSome_iff]
            exact ⟨k', hk', hik, hgk⟩
          rw [hfa] at hsome
          exact Bool.noConfusion hsome
        · exact ⟨q, hq, k', hk', hik, hgk⟩

/-- `analyzeVoiceIntent` on a transcript whose first UI_CONTROL loop
finds a category. -/
theorem analyzeVoiceIntent_ui (t a : String)
    (h : findFirstMatch (normalize t) VOICE_COMMAND_PATTERNS_UI_CONTROL = some a) :
    analyzeVoiceIntent t =
      { type := IntentType.UI_CONTROL, action := some a, game := none,
        confidence := (95 : ℚ) / 100 } := by
  simp only [analyzeVoiceIntent, h]

/-- `analyzeVoiceIntent` on a transcript that passes the UI_CONTROL
check and is accepted by the GAME_START loop. -/
theorem analyzeVoiceIntent_gameStart (t g : String)
    (hui : findFirstMatch (normalize t) VOICE_COMMAND_PATTERNS_UI_CONTROL = none)
    (hg : findGameStart (normalize t) VOICE_COMMAND_PATTERNS_GAME_START = some g) :
    analyzeVoiceIntent t =
      { type := IntentType.GAME_START,
        action := some ("START_GAME_" ++ toUpperStr g),
        game := some g,
        confidence :=
          if hasActionWord (normalize t) then (95 : ℚ) / 100 else (85 : ℚ) / 100 } := by
  simp only [analyzeVoiceIntent, hui, hg]

/-- `analyzeVoiceIntent` when only an INFO_REQUEST phrase matches. -/
theorem analyzeVoiceIntent_info (t : String)
    (hui : findFirstMatch (normalize t) VOICE_COMMAND_PATTERNS_UI_CONTROL = none)
    (hg : findGameStart (normalize t) VOICE_COMMAND_PATTERNS_GAME_START = none)
    (hinfo : (VOICE_COMMAND_PATTERNS_INFO_REQUEST.any
        fun k => includesStr (normalize t) k) = true) :
    analyzeVoiceIntent t =
      { type := IntentType.INFO_REQUEST, action := none, game := none,
        confidence := (85 : ℚ) / 100 } := by
  simp only [analyzeVoiceIntent, hui, hg, hinfo, if_true]

/-- `analyzeVoiceIntent` when nothing matches: the GENERAL_CHAT default. -/
theorem analyzeVoiceIntent_default (t : String)
    (hui : findFirstMatch (normalize t) VOICE_COMMAND_PATTERNS_UI_CONTROL = none)
    (hg : findGameStart (normalize t) VOICE_COMMAND_PATTERNS_GAME_START = none)
    (hinfo : (VOICE_COMMAND_PATTERNS_INFO_REQUEST.any
        fun k => includesStr (normalize t) k) = false) :
    analyzeVoiceIntent t =
      { type := IntentType.GENERAL_CHAT, action := none, game := none,
        confidence := (7 : ℚ) / 10 } := by
  simp only [analyzeVoiceIntent, hui, hg, hinfo, Bool.false_eq_true, if_false]

/-! ### Claim theorems -/

/-- Claim C1: whenever the normalized transcript contains at least one
UI_CONTROL trigger phrase, `analyzeVoiceIntent` returns a UI_CONTROL
intent with confidence 0.95 and no game, whose action is the first
matching category in table-declaration order — even if the transcript
also contains a game-start keyword, since UI_CONTROL is checked before
GAME_START. -/
theorem C1_ui_precedence (t : String)
    (h : (VOICE_COMMAND_PATTERNS_UI_CONTROL.any
        fun p => p.2.any fun k => includesStr (normalize t) k) = true) :
    analyzeVoiceIntent t =
      { type := IntentType.UI_CONTROL
        action := ((VOICE_COMMAND_PATTERNS_UI_CONTROL.filter
            fun p => p.2.any fun k => includesStr (normalize t) k).head?).map Prod.fst
        game := none
        confidence := (95 : ℚ) / 100 } := by
  have hs : (findFirstMatch (normalize t) VOICE_COMMAND_PATTERNS_UI_CONTROL).isSome
      = true := by
    rw [findFirstMatch_isSome]; exact h
  obtain ⟨a, ha⟩ := Option.isSome_iff_exists.mp hs
  rw [analyzeVoiceIntent_ui t a ha, ← findFirstMatch_eq_filterHead, ha]

/-- Claim C1 witness: the transcript `"화투 랭킹 보여줘"` contains the
UI_CONTROL phrase `"랭킹"` (category SHOW_RANKING) and the game-start
phrase `"화투"`, yet classifies as UI_CONTROL. -/
theorem C1_witness :
    analyzeVoiceIntent "화투 랭킹 보여줘" =
      { type := IntentType.UI_CONTROL, action := some "SHOW_RANKING",
        game := none, confidence := (95 : ℚ) / 100 } := by
  have h := C1_ui_precedence "화투 랭킹 보여줘" (by decide)
  exact h.trans (by rfl)

/-- Claim C2 counterexample: for the transcript `"숫자 기억"` the first
matching (game, phrase) pair in table order is (memory, "숫자"), whose
acceptance heuristic fails; the claimed equivalence with the first
matching pair would therefore demand a non-GAME_START result, but the
code accepts the later phrase `"숫자 기억"` of the same game and does
return GAME_START. -/
theorem C2_counterexample :
    firstGameMatchPair (normalize "숫자 기억") VOICE_COMMAND_PATTERNS_GAME_START
        = some ("memory", "숫자") ∧
    gameStartHeuristic (normalize "숫자 기억")
        ((VOICE_COMMAND_PATTERNS_GAME_START.lookup "memory").getD []) "숫자" = false ∧
    (analyzeVoiceIntent "숫자 기억").type = IntentType.GAME_START := by
  refine ⟨by decide, by decide, by decide⟩

/-- Claim C2 (amended): with no UI_CONTROL match, `analyzeVoiceIntent`
returns a GAME_START intent iff SOME matching (game, phrase) pair
passes the acceptance heuristic (hasActionWord, or an explicit
game/start marker in the phrase, or a non-short phrase together with
one of the game's first three phrases); the returned game is the first
accepting game in table order, and the result then is
`{GAME_START, "START_GAME_" + upper-cased id, game id, 0.95 if
hasActionWord else 0.85}`. -/
theorem C2_game_start (t : String)
    (hui : findFirstMatch (normalize t) VOICE_COMMAND_PATTERNS_UI_CONTROL = none) :
    ((analyzeVoiceIntent t).type = IntentType.GAME_START ↔
      ∃ p ∈ VOICE_COMMAND_PATTERNS_GAME_START, ∃ k ∈ p.2,
        includesStr (normalize t) k = true ∧
        gameStartHeuristic (normalize t) p.2 k = true) ∧
    (∀ g, findGameStart (normalize t) VOICE_COMMAND_PATTERNS_GAME_START = some g →
      analyzeVoiceIntent t =
        { type := IntentType.GAME_START
          action := some ("START_GAME_" ++ toUpperStr g)
          game := some g
          confidence :=
            if hasActionWord (normalize t) then (95 : ℚ) / 100
            else (85 : ℚ) / 100 }) := by
  constructor
  · rw [← findGameStart_isSome_iff (normalize t)]
    cases hg : findGameStart (normalize t) VOICE_COMMAND_PATTERNS_GAME_START with
    | some g =>
      rw [analyzeVoiceIntent_gameStart t g hui hg]
      simp
    | none =>
      simp only [Option.isSome_none, Bool.false_eq_true, iff_false]
      by_cases hinfo : (VOICE_COMMAND_PATTERNS_INFO_REQUEST.any
          fun k => includesStr (normalize t) k) = true
      · rw [analyzeVoiceIntent_info t hui hg hinfo]
        simp
      · simp only [Bool.not_eq_true] at hinfo
        rw [analyzeVoiceIntent_default t hui hg hinfo]
        simp
  · intro g hg
    exact analyzeVoiceIntent_gameStart t g hui hg

/-- Claim C2 witness: `"숫자 기억"` has no UI_CONTROL match and the
GAME_START loop accepts the game "memory"; with no action keyword
present the confidence is 0.85. -/
theorem C2_witness :
    analyzeVoiceIntent "숫자 기억" =
      { type := IntentType.GAME_START, action := some "START_GAME_MEMORY",
        game := some "memory", confidence := (85 : ℚ) / 100 } := by
  have h := (C2_game_start "숫자 기억" (by rfl)).2 "memory" (by rfl)
  exact h.trans (by rfl)

/-- Claim C3: `analyzeVoiceIntent` is total by construction; whenever no
phrase of any category matches it returns exactly
`{GENERAL_CHAT, confidence 0.7}`; every result carries an action
exactly for UI_CONTROL and GAME_START, and a game exactly for
GAME_START. -/
theorem C3_totality_shape (t : String) :
    (noPatternMatch (normalize t) = true →
      analyzeVoiceIntent t =
        { type := IntentType.GENERAL_CHAT, action := none, game := none,
          confidence := (7 : ℚ) / 10 }) ∧
    ((analyzeVoiceIntent t).action.isSome = true ↔
      ((analyzeVoiceIntent t).type = IntentType.UI_CONTROL ∨
       (analyzeVoiceIntent t).type = IntentType.GAME_START)) ∧
    ((analyzeVoiceIntent t).game.isSome = true ↔
      (analyzeVoiceIntent t).type = IntentType.GAME_START) := by
  have hshape :
      analyzeVoiceIntent t =
        { type := IntentType.GENERAL_CHAT, action := none, game := none,
          confidence := (7 : ℚ) / 10 } ∨
      ((analyzeVoiceIntent t).type = IntentType.UI_CONTROL ∧
        (analyzeVoiceIntent t).action.isSome = true ∧
        (analyzeVoiceIntent t).game = none) ∨
      ((analyzeVoiceIntent t).type = IntentType.GAME_START ∧
        (analyzeVoiceIntent t).action.isSome = true ∧
        (analyzeVoiceIntent t).game.isSome = true) ∨
      ((analyzeVoiceIntent t).type = IntentType.INFO_REQUEST ∧
        (analyzeVoiceIntent t).action = none ∧
        (analyzeVoiceIntent t).game = none) := by
    cases hui : findFirstMatch (normalize t) VOICE_COMMAND_PATTERNS_UI_CONTROL with
    | some a =>
      rw [analyzeVoiceIntent_ui t a hui]
      right; left; exact ⟨rfl, rfl, rfl⟩
    | none =>
      cases hg : findGameStart (normalize t) VOICE_COMMAND_PATTERNS_GAME_START with
      | some g =>
        rw [analyzeVoiceIntent_gameStart t g hui hg]
        right; right; left; exact ⟨rfl, rfl, rfl⟩
      | none =>
        by_cases hinfo : (VOICE_COMMAND_PATTERNS_INFO_REQUEST.any
            fun k => includesStr (normalize t) k) = true
        · rw [analyzeVoiceIntent_info t hui hg hinfo]
          right; right; right; exact ⟨rfl, rfl, rfl⟩
        · simp only [Bool.not_eq_true] at hinfo
          rw [analyzeVoiceIntent_default t hui hg hinfo]
          left; rfl
  refine ⟨?_, ?_, ?_⟩
  · intro hn
    simp only [noPatternMatch, Bool.and_eq_true, Bool.not_eq_true'] at hn
    obtain ⟨⟨huiany, hgany⟩, hiany⟩ := hn
    have hui : findFirstMatch (normalize t) VOICE_COMMAND_PATTERNS_UI_CONTROL = none := by
      cases hx : findFirstMatch (normalize t) VOICE_COMMAND_PATTERNS_UI_CONTROL with
      | none => rfl
      | some a =>
        have hc := findFirstMatch_isSome (normalize t) VOICE_COMMAND_PATTERNS_UI_CONTROL
        rw [hx, huiany] at hc
        exact Bool.noConfusion hc
    have hg : findGameStart (normalize t) VOICE_COMMAND_PATTERNS_GAME_START = none := by
      cases hx : findGameStart (normalize t) VOICE_COMMAND_PATTERNS_GAME_START with
      | none => rfl
      | some g =>
        have hsome : (findGameStart (normalize t)
            VOICE_COMMAND_PATTERNS_GAME_START).isSome = true := by rw [hx]; rfl
        rw [findGameStart_isSome_iff] at hsome
        obtain ⟨p, hp, k, hk, hik, -⟩ := hsome
        rw [List.any_eq_false] at hgany
        have h2 := hgany p hp
        simp only [Bool.not_eq_true, List.any_eq_false] at h2
        have h3 := h2 k hk
        rw [hik] at h3
        exact Bool.noConfusion h3
    exact analyzeVoiceIntent_default t hui hg hiany
  · rcases hshape with h | ⟨hty, ha, hga⟩ | ⟨hty, ha, hga⟩ | ⟨hty, ha, hga⟩
    · simp [h]
    · simp [hty, ha, hga]
    · simp [hty, ha, hga]
    · simp [hty, ha, hga]
  · rcases hshape with h | ⟨hty, ha, hga⟩ | ⟨hty, ha, hga⟩ | ⟨hty, ha, hga⟩
    · simp [h]
    · simp [hty, ha, hga]
    · simp [hty, ha, hga]
    · simp [hty, ha, hga]

/-- Claim C3 witness: the transcript `"안녕"` matches no phrase of any
category and classifies as the GENERAL_CHAT default. -/
theorem C3_witness :
    analyzeVoiceIntent "안녕" =
      { type := IntentType.GENERAL_CHAT, action := none, game := none,
        confidence := (7 : ℚ) / 10 } :=
  (C3_totality_shape "안녕").1 (by decide)

/-- Claim C4: the transcript `"숫자"` alone matches a memory-game phrase
of length 2, contains no action keyword and no game/start marker, so
the GAME_START heuristic rejects it: the result is not GAME_START but
falls through to the GENERAL_CHAT default. -/
theorem C4_short_keyword :
    includesStr (normalize "숫자") "숫자" = true ∧
    hasActionWord (normalize "숫자") = false ∧
    gameStartHeuristic (normalize "숫자")
        ((VOICE_COMMAND_PATTERNS_GAME_START.lookup "memory").getD []) "숫자" = false ∧
    (analyzeVoiceIntent "숫자").type ≠ IntentType.GAME_START ∧
    analyzeVoiceIntent "숫자" =
      { type := IntentType.GENERAL_CHAT, action := none, game := none,
        confidence := (7 : ℚ) / 10 } :=
  ⟨by decide, by decide, by decide, by decide, by rfl⟩

/-- The intent dispatcher only appends to the history: it never touches
the processing flag. -/
theorem dispatchIntent_processing (s : CoordState) (t reply : String) :
    (dispatchIntent s t reply).1.processing = s.processing := by
  simp only [dispatchIntent]
  split <;> rfl

/-- Any event other than the stop-talking signal preserves a true
avatar-speaking flag. -/
theorem step_preserves_avatarSpeaking (s : CoordState) (e : Event)
    (he : e ≠ Event.avatarStop) (h : s.avatarSpeakingRef = true) :
    (step s e).1.avatarSpeakingRef = true := by
  cases e with
  | avatarStart => rfl
  | avatarStop => exact absurd rfl he
  | transcript t f r => simp [step, onResult, h]
  | cycleEnd ok => exact h

/-- A run containing no stop-talking signal preserves a true
avatar-speaking flag. -/
theorem run_preserves_avatarSpeaking (es : List Event) (s : CoordState)
    (hes : Event.avatarStop ∉ es) (h : s.avatarSpeakingRef = true) :
    (run s es).1.avatarSpeakingRef = true := by
  induction es generalizing s with
  | nil => exact h
  | cons e rest ih =>
    simp only [run]
    exact ih (step s e).1 (fun hm => hes (List.mem_cons_of_mem _ hm))
      (step_preserves_avatarSpeaking s e
        (fun he => hes (he ▸ List.mem_cons_self _ _)) h)

/-- Claim C5: in every run of the coordinator step relation, after an
avatar-start-talking event and before the matching stop-talking event
the avatar-speaking flag stays true, and any transcript event (interim
or final) arriving in that interval leaves the state unchanged and
produces no effect: `handleUserSpeech` returns before classifying and
no intent is dispatched. -/
theorem C5_transcripts_dropped_while_speaking (s : CoordState) (mid : List Event)
    (hmid : Event.avatarStop ∉ mid) (t reply : String) (isFinal : Bool) :
    (run (step s Event.avatarStart).1 mid).1.avatarSpeakingRef = true ∧
    step (run (step s Event.avatarStart).1 mid).1 (Event.transcript t isFinal reply)
      = ((run (step s Event.avatarStart).1 mid).1, []) := by
  have h1 := run_preserves_avatarSpeaking mid (step s Event.avatarStart).1 hmid rfl
  refine ⟨h1, ?_⟩
  show onResult (run (step s Event.avatarStart).1 mid).1 t isFinal reply = _
  unfold onResult
  rw [h1]
  simp

/-- Claim C5 witness: after the start-talking event, an interim
transcript and then a final transcript are both dropped while no
stop-talking event has arrived. -/
theorem C5_witness :
    (run (step initCoordState Event.avatarStart).1
        [Event.transcript "화투" false "r"]).1.avatarSpeakingRef = true ∧
    step (run (step initCoordState Event.avatarStart).1
        [Event.transcript "화투" false "r"]).1
        (Event.transcript "숫자 게임 시작" true "reply")
      = ((run (step initCoordState Event.avatarStart).1
          [Event.transcript "화투" false "r"]).1, []) :=
  C5_transcripts_dropped_while_speaking initCoordState
    [Event.transcript "화투" false "r"] (by decide) "숫자 게임 시작" "reply" true

/-- Claim C6: at most one classification-and-response cycle is in flight:
a final transcript arriving while `isProcessing` is true is discarded
with no state change and no effect (nothing queued); an accepted cycle
sets `isProcessing` true at its start; and the `finally` block resets
it to false when the cycle ends, on the success path (`ok = true`) and
on the error path (`ok = false`) alike. -/
theorem C6_reentrancy_guard (s : CoordState) (t reply : String) (ok : Bool) :
    (s.processing = true → handleUserSpeech s t reply = (s, [])) ∧
    (s.avatarSpeakingRef = false → s.processing = false →
      (trimWs t.data).isEmpty = false →
      (handleUserSpeech s t reply).1.processing = true) ∧
    (step s (Event.cycleEnd ok)).1.processing = false := by
  refine ⟨?_, ?_, rfl⟩
  · intro hp
    unfold handleUserSpeech
    cases hr : s.avatarSpeakingRef with
    | true => simp
    | false => simp [hp]
  · intro hr hp ht
    unfold handleUserSpeech
    simp only [hr, hp, ht, Bool.false_eq_true, if_false, Bool.or_self]
    exact dispatchIntent_processing _ t reply

/-- Claim C6 witness: a concrete busy state drops a fresh final
transcript unchanged; from the idle state the same transcript starts a
cycle with the processing flag set; a cycle-end on the error path
clears it. -/
theorem C6_witness :
    handleUserSpeech { initCoordState with processing := true } "화투 시작" "r"
        = ({ initCoordState with processing := true }, []) ∧
    (handleUserSpeech initCoordState "화투 시작" "r").1.processing = true ∧
    (step initCoordState (Event.cycleEnd false)).1.processing = false :=
  ⟨(C6_reentrancy_guard { initCoordState with processing := true } "화투 시작" "r" false).1 rfl,
   (C6_reentrancy_guard initCoordState "화투 시작" "r" false).2.1 rfl rfl (by decide),
   (C6_reentrancy_guard initCoordState "화투 시작" "r" false).2.2⟩

/-- Claim C7: if the SDK speak call inside `speakWithAvatar` fails, the
catch block fails open: both avatar-speaking flags (ref and React
state) are reset to false and the speech recognizer is resumed, so the
system does not remain suppressed. -/
theorem C7_fail_open (s : SpeakState) (t : String) (iFail : Bool)
    (ht : (t == "") = false) :
    (speakWithAvatar true t iFail true s).1.avatarSpeakingRef = false ∧
    (speakWithAvatar true t iFail true s).1.avatarSpeakingState = false ∧
    (speakWithAvatar true t iFail true s).1.recognizerPaused = false ∧
    (speakWithAvatar true t iFail true s).2
      = [SpeakAction.pause, SpeakAction.delayMs 300, SpeakAction.interrupt,
         SpeakAction.speak t, SpeakAction.resume] := by
  unfold speakWithAvatar
  simp [ht]

/-- Claim C7 witness: a failing speak call from the all-flags-cleared
state leaves the flags cleared and ends the trace with a resume. -/
theorem C7_witness :
    (speakWithAvatar true "안녕하세요" false true initSpeakState).1.avatarSpeakingRef
        = false ∧
    (speakWithAvatar true "안녕하세요" false true initSpeakState).1.avatarSpeakingState
        = false ∧
    (speakWithAvatar true "안녕하세요" false true initSpeakState).1.recognizerPaused
        = false ∧
    (speakWithAvatar true "안녕하세요" false true initSpeakState).2
      = [SpeakAction.pause, SpeakAction.delayMs 300, SpeakAction.interrupt,
         SpeakAction.speak "안녕하세요", SpeakAction.resume] :=
  C7_fail_open initSpeakState "안녕하세요" false (by decide)

/-- Claim C8 counterexample: in the actual `speakWithAvatar` trace the
fixed 300 ms settle delay comes BEFORE the interrupt (pause, delay,
interrupt, speak), so the claimed order — interrupt strictly before
the settle delay — is false: interrupt sits at index 2 and the delay
at index 1 of the trace. -/
theorem C8_counterexample :
    (speakWithAvatar true "안녕하세요" false false initSpeakState).2
      = [SpeakAction.pause, SpeakAction.delayMs 300, SpeakAction.interrupt,
         SpeakAction.speak "안녕하세요"] ∧
    firstIdx SpeakAction.interrupt
        (speakWithAvatar true "안녕하세요" false false initSpeakState).2 = some 2 ∧
    firstIdx (SpeakAction.delayMs 300)
        (speakWithAvatar true "안녕하세요" false false initSpeakState).2 = some 1 ∧
    ¬(2 < 1) :=
  ⟨by decide, by decide, by decide, by decide⟩

/-- Claim C8 (amended): whenever avatar speech is invoked with an avatar
present and non-empty text, the recognizer is paused first, then the
fixed 300 ms settle delay elapses, THEN the in-flight utterance is
interrupted, and the speak call follows the interrupt immediately
(with a resume appended only on the failure path): pause precedes
delay precedes interrupt precedes speak. -/
theorem C8_interrupt_order (s : SpeakState) (t : String) (iFail sFail : Bool)
    (ht : (t == "") = false) :
    (speakWithAvatar true t iFail sFail s).2
      = [SpeakAction.pause, SpeakAction.delayMs 300, SpeakAction.interrupt,
         SpeakAction.speak t]
        ++ (if sFail then [SpeakAction.resume] else []) := by
  unfold speakWithAvatar
  cases sFail <;> simp [ht]

/-- Claim C8 witness: the successful-path trace on a concrete text. -/
theorem C8_witness :
    (speakWithAvatar true "시작" false false initSpeakState).2
      = [SpeakAction.pause, SpeakAction.delayMs 300, SpeakAction.interrupt,
         SpeakAction.speak "시작"] := by
  have h := C8_interrupt_order initSpeakState "시작" false false (by decide)
  simpa using h

/-- Claim C9: across every sequence of INFO_REQUEST/GENERAL_CHAT
dispatches the chat history accumulates the user turn and then the
assistant turn of each cycle in call order (append-only, ordering
preserved), and the body of the i-th chat request carries exactly the
history accumulated by the preceding cycles, unmodified. -/
theorem C9_history_roundtrip (userName : String) (h : List ChatMessage)
    (ps : List (String × String)) :
    (chatRun userName h ps).1 = h ++ turns ps ∧
    (chatRun userName h ps).2.length = ps.length ∧
    ∀ i, i < ps.length →
      ((chatRun userName h ps).2.getD i
          { type := "", message := "", history := [], userName := "" }).history
        = h ++ turns (ps.take i) := by
  induction ps generalizing h with
  | nil =>
    exact ⟨by simp [chatRun, turns], by simp [chatRun],
      fun i hi => absurd hi (Nat.not_lt_zero i)⟩
  | cons p rest ih =>
    obtain ⟨t, r⟩ := p
    have ihh := ih (h ++ [⟨Role.user, t⟩, ⟨Role.assistant, r⟩])
    refine ⟨?_, ?_, ?_⟩
    · simp only [chatRun, chatDispatch]
      rw [ihh.1]
      simp [turns, List.append_assoc]
    · simp only [chatRun, chatDispatch, List.length_cons]
      rw [ihh.2.1]
    · intro i hi
      cases i with
      | zero =>
        simp only [chatRun, chatDispatch, List.getD_cons_zero]
        simp [turns]
      | succ j =>
        have hj : j < rest.length := Nat.lt_of_succ_lt_succ (by simpa using hi)
        have h3 := ihh.2.2 j hj
        simp only [chatRun, chatDispatch, List.getD_cons_succ]
        rw [h3]
        simp [turns, List.take_succ_cons, List.append_assoc]

/-- Claim C9 witness: two concrete chat cycles — the final history holds
all four turns in order, and the second request's body carries exactly
the first cycle's two turns. -/
theorem C9_witness :
    (chatRun "" [] [("안녕", "반가워요"), ("점수 알려줘", "구십점이에요")]).1
      = [⟨Role.user, "안녕"⟩, ⟨Role.assistant, "반가워요"⟩,
         ⟨Role.user, "점수 알려줘"⟩, ⟨Role.assistant, "구십점이에요"⟩] ∧
    ((chatRun "" [] [("안녕", "반가워요"), ("점수 알려줘", "구십점이에요")]).2.getD 1
        { type := "", message := "", history := [], userName := "" }).history
      = [⟨Role.user, "안녕"⟩, ⟨Role.assistant, "반가워요"⟩] := by
  have h := C9_history_roundtrip "" [] [("안녕", "반가워요"), ("점수 알려줘", "구십점이에요")]
  exact ⟨h.1.trans (by rfl), (h.2.2 1 (by decide)).trans (by rfl)⟩

/-- Claim C10: for an empty or whitespace-only transcript,
`handleUserSpeech` is a no-op at the public interface: the state —
chat history, loading flag and processing flag included — is unchanged
and no effect is produced: no classification, no cross-window command,
no speech, no chat request. -/
theorem C10_blank_transcript_noop (s : CoordState) (t reply : String)
    (ht : (trimWs t.data).isEmpty = true) :
    handleUserSpeech s t reply = (s, []) := by
  unfold handleUserSpeech
  cases hr : s.avatarSpeakingRef with
  | true => simp
  | false => simp [ht]

/-- Claim C10 witness: a whitespace-only transcript leaves the initial
state untouched with an empty effect trace. -/
theorem C10_witness :
    handleUserSpeech initCoordState "   " "reply" = (initCoordState, []) :=
  C10_blank_transcript_noop initCoordState "   " "reply" (by decide)

end AvatarSpec
